import Mathlib

/-!
Shallow embedding of the PiAlert core (src/sensors.py, src/alerts.py).

Numeric readings, set-points and threshold bounds are modelled as rationals
(the Python code only adds, multiplies and compares them); timestamps and
durations as integers.  Python's wall clock (`datetime.now()`) is passed in
explicitly as a `now` parameter.  Exceptions (`ValueError` on construction,
`AttributeError` on feature lookup) are modelled with `Option`: `none` is the
raised exception.  The module-level configuration read from `alerts.yml`
(`EXPIRY`, `WARNING_THR`, `ALERT_THR`) is a `Config` record passed where the
Python code reads the globals.
-/

namespace PiAlert

/-- The four severity levels, `LEVELS = ['alert', 'warning', 'notify', 'info']`
in src/alerts.py. -/
inductive Level where
  | alert
  | warning
  | notify
  | info
deriving DecidableEq, Repr

/-- The `LEVELS` list of src/alerts.py, most severe first. -/
def LEVELS : List Level := [Level.alert, Level.warning, Level.notify, Level.info]

/-- `LEVELS.index(level)` of the Python code: position of a level in `LEVELS`
(alert = 0, warning = 1, notify = 2, info = 3). -/
def Level.index : Level → ℕ
  | Level.alert => 0
  | Level.warning => 1
  | Level.notify => 2
  | Level.info => 3

theorem Level.index_eq_indexOf (l : Level) : l.index = LEVELS.indexOf l := by
  cases l <;> rfl

/-- `Threshold.level` setter: the string is accepted only when it is one of
the four recognized level names, otherwise `ValueError` (here `none`). -/
def parseLevel (s : String) : Option Level :=
  if s = "alert" then some Level.alert
  else if s = "warning" then some Level.warning
  else if s = "notify" then some Level.notify
  else if s = "info" then some Level.info
  else Option.none

/-- A threshold band (src/sensors.py `Threshold` / `FractionThreshold`).
`isFraction` distinguishes the `FractionThreshold` subclass, whose `violated`
override scales the bounds by the set-point. -/
structure Threshold where
  lower : ℚ
  upper : ℚ
  level : Level
  isFraction : Bool
deriving DecidableEq, Repr

/-- `Threshold.violated(value, setting)` with the `FractionThreshold`
override dispatched on `isFraction`:
absolute form `value > setting + upper or value < setting - lower`;
fractional form `value > setting + setting*upper or value < setting - setting*lower`. -/
def Threshold.violated (t : Threshold) (value : ℚ) (setting : ℚ) : Bool :=
  if t.isFraction then
    decide (value > setting + setting * t.upper) || decide (value < setting - setting * t.lower)
  else
    decide (value > setting + t.upper) || decide (value < setting - t.lower)

/-- `Threshold.__init__(lower, upper, level)` after the tuple unpacking and
`upper is None` defaulting: only the level is validated. -/
def Threshold.mkT (lower upper : ℚ) (level : String) : Option Threshold :=
  (parseLevel level).map fun lv =>
    { lower := lower, upper := upper, level := lv, isFraction := false }

/-! ### Percentage-string parsing (`FractionThreshold.__percent_to_float`) -/

/-- A value passed as a threshold bound to `FractionThreshold`: a Python
string, a float, or `None` (also standing for any other non-str non-float). -/
inductive BoundVal where
  | str (s : String)
  | float (q : ℚ)
  | pynone
deriving DecidableEq, Repr

/-- Characters removed by Python's `value.strip(' %')`. -/
def isStripTarget (c : Char) : Bool := c == ' ' || c == '%'

/-- `value.strip(' %')`: drop spaces and percent signs from both ends. -/
def stripSpacePercent (s : String) : String :=
  String.mk (((s.toList.dropWhile isStripTarget).reverse.dropWhile isStripTarget).reverse)

/-- Python's `value.endswith('%')`: the string's last character is `%`
(false for the empty string). -/
def endsWithPercent (s : String) : Bool := s.toList.getLast? == some '%'

def charToDigit (c : Char) : ℕ := c.toNat - 48

def digitsToNat (cs : List Char) : ℕ := cs.foldl (fun n c => n * 10 + charToDigit c) 0

/-- A sound under-approximation of Python's `float(s)`: an optional sign
followed by decimal digits with at most one decimal point.  Every string
this accepts is accepted by `float` with the same value, so it is used only
in the success direction; strings it rejects (exponent notation, `inf`,
`nan`, underscores) are not claimed to raise in Python. -/
def parseFloatQ (s : String) : Option ℚ :=
  let cs := s.toList
  let sgn : Bool × List Char :=
    match cs with
    | '-' :: rest => (true, rest)
    | '+' :: rest => (false, rest)
    | _ => (false, cs)
  let ip := sgn.2.takeWhile (fun c => c != '.')
  let rest := sgn.2.dropWhile (fun c => c != '.')
  let fp : Option (List Char) :=
    match rest with
    | [] => some []
    | _ :: r => if r.any (fun c => c == '.') then Option.none else some r
  match fp with
  | Option.none => Option.none
  | some f =>
    if (ip.isEmpty && f.isEmpty) || !ip.all Char.isDigit || !f.all Char.isDigit then
      Option.none
    else
      let mag : ℚ := (digitsToNat ip : ℚ) + (digitsToNat f : ℚ) / ((10 : ℚ) ^ f.length)
      some (if sgn.1 then -mag else mag)

/-- `FractionThreshold.__percent_to_float(value)`:
a string ending in `%` is stripped and parsed (`float(...) / 100`); a float
passes through; anything else (including `None`) raises `ValueError`. -/
def percentToFloat : BoundVal → Option ℚ
  | BoundVal.str s =>
      if endsWithPercent s then (parseFloatQ (stripSpacePercent s)).map (fun q => q / 100)
      else Option.none
  | BoundVal.float q => some q
  | BoundVal.pynone => Option.none

namespace FractionThreshold

/-- `FractionThreshold.__init__(lower, upper, level)` after tuple unpacking:
both bounds go through `__percent_to_float` (failure raises), then
`Threshold.__init__` validates the level. -/
def mkF (lower upper : BoundVal) (level : String) : Option Threshold :=
  match percentToFloat lower, percentToFloat upper, parseLevel level with
  | some l, some u, some lv => some { lower := l, upper := u, level := lv, isFraction := true }
  | _, _, _ => Option.none

end FractionThreshold

/-! ### Alerts (src/alerts.py) -/

/-- The Python class of an alert event: `Alert` (base), `TemperatureAlert`,
`HumidityAlert`.  `AlertState.update` matches events with `isinstance`, and
both subclasses extend `base`. -/
inductive Kind where
  | base
  | temperature
  | humidity
deriving DecidableEq, Repr

/-- `isinstance(a, T)` on the alert class hierarchy: the classes are equal,
or `T` is the base class `Alert` (of which both subclasses are instances). -/
def Kind.isInstance (a target : Kind) : Bool := a == target || target == Kind.base

/-- One violation event (`Alert.__init__` fields): timestamp sampled at
construction, the violated threshold, the measured value and the set-point
(`trigger`) at the time.  `kind` records the concrete Python class. -/
structure Alert where
  timestamp : ℤ
  threshold : Threshold
  value : ℚ
  trigger : ℚ
  kind : Kind
deriving DecidableEq, Repr

/-- `Alert.__init__`: stores the fields and raises `ValueError` (here `none`)
when `threshold.violated(value, trigger)` does not hold. -/
def Alert.mkA (now : ℤ) (k : Kind) (t : Threshold) (value trigger : ℚ) : Option Alert :=
  if t.violated value trigger then
    some { timestamp := now, threshold := t, value := value, trigger := trigger, kind := k }
  else Option.none

/-- `MonitoredValue`: a set-point `_set` and the `_alerts` threshold list
(warning first, alert second, as built by `__init__`).  `kind` is the class
attribute `ALERT` determining which Alert class `triggers` constructs. -/
structure MonitoredValue where
  vset : ℚ
  alerts : List Threshold
  kind : Kind
deriving DecidableEq, Repr

/-- `MonitoredValue.triggers(value)`, forced to a list as the handler does:
for each threshold in `_alerts` violated by `value` against the set-point,
yield one Alert built from that (threshold, value, set-point) triple. -/
def MonitoredValue.triggers (mv : MonitoredValue) (now : ℤ) (value : ℚ) : List Alert :=
  (mv.alerts.filter (fun t => t.violated value mv.vset)).map
    (fun t => { timestamp := now, threshold := t, value := value,
                trigger := mv.vset, kind := mv.kind })

/-- The `triggers` generator with the Alert constructor's own `violated`
check kept in place: for each threshold violated by the reading, construct
the Alert through `Alert.mkA`, propagating its possible `ValueError`. -/
def triggersAux (now : ℤ) (k : Kind) (value vset : ℚ) : List Threshold → Option (List Alert)
  | [] => some []
  | t :: ts =>
    if t.violated value vset then
      match Alert.mkA now k t value vset, triggersAux now k value vset ts with
      | some al, some rest => some (al :: rest)
      | _, _ => Option.none
    else triggersAux now k value vset ts

/-- `triggers` with constructor checks: `none` is a raised `ValueError`. -/
def MonitoredValue.triggersE (mv : MonitoredValue) (now : ℤ) (value : ℚ) :
    Option (List Alert) :=
  triggersAux now mv.kind value mv.vset mv.alerts

/-! ### AlertState (src/alerts.py) -/

/-- Configuration read from `alerts.yml` at module load: the expiry window
`EXPIRY` and the count thresholds `WARNING_THR` / `ALERT_THR` (Python ints). -/
structure Config where
  expiry : ℤ
  warningThr : ℤ
  alertThr : ℤ
deriving DecidableEq, Repr

/-- `AlertState`: `newA` is `self._new` (ordered, unexpired alerts),
`archived` is `self._alerts` (ordered, expired alerts), `notified` is
`self._notified` (the nullable notification timestamp), `expiry` is the
`self._expiry` window copied from the configuration at construction.
The non-owning sensor reference is not part of the state the claims
concern (it is only read by `__str__`). -/
structure AlertState where
  expiry : ℤ
  newA : List Alert
  archived : List Alert
  notified : Option ℤ
deriving DecidableEq, Repr

namespace AlertState

/-- `AlertState.__init__(sensor, alerts)`: `_new` seeded from the incoming
alerts, `_alerts` empty, `_notified = None`, expiry from configuration. -/
def mkState (cfg : Config) (alerts : List Alert) : AlertState :=
  { expiry := cfg.expiry, newA := alerts, archived := [], notified := Option.none }

/-- The `alerts` property: `self._alerts + self._new`. -/
def alerts (st : AlertState) : List Alert := st.archived ++ st.newA

/-- The `type` property is `self.alerts[-1].type`; Python raises on an empty
union, which never occurs (states are created with at least one alert and
alerts are only moved between the two lists, never dropped).  The empty case
defaults to the base class here. -/
def stype (st : AlertState) : Kind :=
  ((st.alerts.getLast?).map Alert.kind).getD Kind.base

/-- One step of the `severity` loop: `i = v if v < i else i`. -/
def sevStep (i : ℕ) (a : Alert) : ℕ :=
  if a.threshold.level.index < i then a.threshold.level.index else i

/-- The index computed by the `severity` property: starting from 10, the
minimum of `LEVELS.index(a.threshold.level)` over all retained alerts. -/
def severityIdx (st : AlertState) : ℕ := st.alerts.foldl sevStep 10

/-- The `severity` property itself, `LEVELS[i]`; `none` is the `IndexError`
Python raises when the state holds no alerts at all. -/
def severity? (st : AlertState) : Option Level := LEVELS[st.severityIdx]?

/-- The `active` property: `len(self._new) > 0`. -/
def active (st : AlertState) : Bool := decide (0 < st.newA.length)

/-- One step of the counting loop in `pending`: a warning-level alert bumps
the first counter, an alert-level one the second (`elif`), others neither. -/
def countStep (wa : ℕ × ℕ) (a : Alert) : ℕ × ℕ :=
  if a.threshold.level == Level.warning then (wa.1 + 1, wa.2)
  else if a.threshold.level == Level.alert then (wa.1, wa.2 + 1)
  else wa

/-- The `(warnings, alerts)` counters accumulated by the `pending` loop over
`self._new`. -/
def pendingCounts (st : AlertState) : ℕ × ℕ := st.newA.foldl countStep (0, 0)

/-- The `pending` property:
`(warnings >= WARNING_THR or alerts >= ALERT_THR) and self._notified is None`. -/
def pending (cfg : Config) (st : AlertState) : Bool :=
  (decide ((st.pendingCounts.1 : ℤ) ≥ cfg.warningThr)
      || decide ((st.pendingCounts.2 : ℤ) ≥ cfg.alertThr))
    && st.notified.isNone

/-- `AlertState.prune()`: every `_new` entry with `timestamp < now - expiry`
is appended to `_alerts` (in order) and removed from `_new`. -/
def prune (st : AlertState) (now : ℤ) : AlertState :=
  { st with
    archived := st.archived ++ st.newA.filter (fun a => decide (a.timestamp < now - st.expiry)),
    newA := st.newA.filter (fun a => !decide (a.timestamp < now - st.expiry)) }

/-- One iteration of the `update` loop body for incoming alert `a`:
skip it unless `isinstance(a, self.type)`; reset `_notified` when the
incoming level index is strictly below the current composite severity index
(for a non-empty state `LEVELS.index(self.severity)` equals `severityIdx`,
see `severityIdx_eq_index`); then append `a` to `_new`.  The empty-state
branch, where Python's `self.type` raises, leaves the state unchanged. -/
def updateStep (st : AlertState) (a : Alert) : AlertState :=
  match st.alerts.getLast? with
  | Option.none => st
  | some la =>
    if Kind.isInstance a.kind la.kind then
      let st1 := if a.threshold.level.index < st.severityIdx then
          { st with notified := Option.none } else st
      { st1 with newA := st1.newA ++ [a] }
    else st

/-- `AlertState.update(alerts)`: the per-alert loop followed by `prune`. -/
def update (st : AlertState) (incoming : List Alert) (now : ℤ) : AlertState :=
  (incoming.foldl updateStep st).prune now

end AlertState

/-! ### AlertHandler (src/alerts.py) -/

/-- Outcome of the external SMS transport (`gsmHat`, out of scope of the
core): the core never inspects it. -/
inductive TransportResult where
  | ok
  | failed
deriving DecidableEq, Repr

/-- A sensor as the handler sees it: a name-keyed collection of monitored
values (`getattr(sensor, feature)` on the capability mixins). -/
structure Sensor where
  features : List (String × MonitoredValue)
deriving DecidableEq, Repr

/-- `getattr(sensor, feature)`; `none` is the `AttributeError` raised for an
unknown feature name. -/
def Sensor.lookup (s : Sensor) (feature : String) : Option MonitoredValue :=
  (s.features.find? (fun f => f.1 == feature)).map (fun f => f.2)

/-- Replace the element at index `i` (used where Python mutates the matched
state object held inside the registry list). -/
def modifyAt : ℕ → (α → α) → List α → List α
  | _, _, [] => []
  | 0, f, a :: as => f a :: as
  | n + 1, f, a :: as => a :: modifyAt n f as

namespace AlertHandler

/-- Index of the LAST state in the list whose `type` equals `k`: the Python
loop `for a in ...: if a.type == alerts[0].type: state = a` keeps
overwriting `state`, so the last match wins. -/
def lastMatchIdx (states : List AlertState) (k : Kind) : Option ℕ :=
  (states.foldl
    (fun (acc : Option ℕ × ℕ) st =>
      (if st.stype == k then some acc.2 else acc.1, acc.2 + 1))
    (Option.none, 0)).1

/-- `AlertHandler.text(alert)`: sends the rendered state over the external
SMS transport (or prints it), then stamps `alert.notified = datetime.now()`.
The transport outcome is not inspected by the code, so the stamp happens for
every outcome. -/
def text (st : AlertState) (now : ℤ) (_outcome : TransportResult) : AlertState :=
  { st with notified := some now }

/-- One `for feature in message.keys()` iteration of `handle`: resolve the
feature's MonitoredValue (unknown feature raises), force `triggers`; when
the candidate list is non-empty either `update` the last registered state of
the first candidate's type, or register a fresh `AlertState`. -/
def handleFeature (cfg : Config) (now : ℤ) (sensor : Sensor)
    (states : List AlertState) (feature : String) (reading : ℚ) :
    Option (List AlertState) :=
  match sensor.lookup feature with
  | Option.none => Option.none
  | some mv =>
    let alerts := mv.triggers now reading
    match alerts with
    | [] => some states
    | a0 :: rest =>
      match lastMatchIdx states a0.kind with
      | Option.none => some (states ++ [AlertState.mkState cfg (a0 :: rest)])
      | some i => some (modifyAt i (fun st => st.update (a0 :: rest) now) states)

/-- The scan phase of `handle`: for each state in registration order,
`prune` it, and when `pending` holds invoke the notification collaborator
(`text`) on it.  Returns the processed states paired with the list of state
snapshots passed to the collaborator. -/
def scanPhase (cfg : Config) (now : ℤ) (states : List AlertState) :
    List AlertState × List AlertState :=
  states.foldl
    (fun acc st =>
      let st1 := st.prune now
      if st1.pending cfg then
        (acc.1 ++ [text st1 now TransportResult.ok], acc.2 ++ [st1])
      else (acc.1 ++ [st1], acc.2))
    ([], [])

/-- `AlertHandler.handle(sensor, message)` for one sensor's registry slice:
process every feature of the message, then scan all states once — `prune`
each, collect the now-inactive ones, fire `text` on each pending one — and
only after the scan remove the collected inactive states.  Returns the new
registry slice and the collaborator-invocation log; `none` is a propagated
unknown-feature error. -/
def handle (cfg : Config) (now : ℤ) (sensor : Sensor)
    (message : List (String × ℚ)) (states : List AlertState) :
    Option (List AlertState × List AlertState) :=
  match message.foldlM (fun sts m => handleFeature cfg now sensor sts m.1 m.2) states with
  | Option.none => Option.none
  | some states1 =>
    let scanned := scanPhase cfg now states1
    some (scanned.1.filter (fun st => st.active), scanned.2)

end AlertHandler

/-! ## Claim theorems -/

/-- C4, counterexample: the claim that `FractionThreshold.violated` scales
the bounds by the *magnitude* of the set-point fails at a negative
set-point.  With bounds 1 and 1, value −15 and set-point −10, the code
(which multiplies by the signed set-point) reports a violation, while the
magnitude formula `value > s + |s|*upper ∨ value < s - |s|*lower` does not
hold. -/
theorem fraction_violated_magnitude_cex :
    Threshold.violated
        { lower := 1, upper := 1, level := Level.warning, isFraction := true } (-15) (-10) = true
      ∧ ¬(((-15 : ℚ) > -10 + |(-10 : ℚ)| * 1) ∨ ((-15 : ℚ) < -10 - |(-10 : ℚ)| * 1)) := by
  constructor
  · norm_num [Threshold.violated]
  · norm_num

/-- C4, amended: for every `FractionThreshold`, `violated(value, s)` is true
exactly when `value > s + s*upper` or `value < s - s*lower` — the bounds are
scaled by the *signed* set-point, which agrees with the magnitude form only
for non-negative set-points. -/
theorem fraction_violated_signed (t : Threshold) (v s : ℚ) (hf : t.isFraction = true) :
    t.violated v s = true ↔ (v > s + s * t.upper ∨ v < s - s * t.lower) := by
  simp [Threshold.violated, hf]

/-- Witness for C4's amended theorem at bounds 1/1, value −15, set-point −10. -/
theorem fraction_violated_signed_witness :
    Threshold.violated
      { lower := 1, upper := 1, level := Level.warning, isFraction := true } (-15) (-10) = true :=
  (fraction_violated_signed
      { lower := 1, upper := 1, level := Level.warning, isFraction := true } (-15) (-10) rfl).mpr
    (Or.inl (by norm_num))

/-- C5, counterexample: the percentage string `"-50%"` is accepted by
`__percent_to_float` and parses to the *negative* fraction −1/2, and a
`FractionThreshold` is successfully constructed from it — refuting that
percentage strings always parse into `[0, ∞)` and that unparseable-to-a-
non-negative-fraction strings fail. -/
theorem percent_nonneg_cex :
    percentToFloat (BoundVal.str "-50%") = some (-(1/2) : ℚ)
      ∧ (-(1/2) : ℚ) < 0
      ∧ (FractionThreshold.mkF (BoundVal.str "-50%") (BoundVal.str "-50%") "warning").isSome
          = true := by
  have hp : percentToFloat (BoundVal.str "-50%") = some (-(1/2) : ℚ) := by
    have h1 : stripSpacePercent "-50%" = "-50" := by decide
    have h2 : ("-50").toList = ['-', '5', '0'] := by decide
    have h3 : endsWithPercent "-50%" = true := by decide
    simp +decide [percentToFloat, h1, h3, parseFloatQ, h2, digitsToNat, charToDigit]
    norm_num
  refine ⟨hp, by norm_num, ?_⟩
  simp [FractionThreshold.mkF, hp, parseLevel]

/-- C5, amended: constructing a `Threshold` fails exactly when the level is
outside the four recognized names; and percentage strings do not parse into
`[0, ∞)`: a percentage string whose stripped body parses as a float `q` is
accepted by `__percent_to_float`, with result `q / 100`, which is negative
whenever `q` is — there is no non-negativity check. -/
theorem construction_validation (l u : ℚ) (lvl : String) (s : String) (q : ℚ)
    (hend : endsWithPercent s = true) (hp : parseFloatQ (stripSpacePercent s) = some q) :
    ((Threshold.mkT l u lvl).isSome = true
        ↔ lvl ∈ (["alert", "warning", "notify", "info"] : List String))
      ∧ percentToFloat (BoundVal.str s) = some (q / 100)
      ∧ (q < 0 → q / 100 < 0) := by
  refine ⟨?_, ?_, fun hq => div_neg_of_neg_of_pos hq (by norm_num)⟩
  · unfold Threshold.mkT parseLevel
    split_ifs <;> simp_all
  · simp [percentToFloat, hend, hp]

/-- C9: `MonitoredValue.triggers` evaluates its thresholds independently:
with the warning threshold first and the alert threshold second (as built by
`__init__`), a reading violating both yields exactly two alerts, one at each
level; a reading violating neither yields the empty list; and in general one
alert is emitted per violated threshold. -/
theorem triggers_independent (mv : MonitoredValue) (w a : Threshold) (now : ℤ) (v : ℚ)
    (hmv : mv.alerts = [w, a])
    (hw : w.level = Level.warning) (ha : a.level = Level.alert) :
    (w.violated v mv.vset = true → a.violated v mv.vset = true →
        (mv.triggers now v).map (fun al => al.threshold.level)
          = [Level.warning, Level.alert])
      ∧ (w.violated v mv.vset = false → a.violated v mv.vset = false →
        mv.triggers now v = [])
      ∧ (mv.triggers now v).length
          = (mv.alerts.filter (fun t => t.violated v mv.vset)).length := by
  refine ⟨fun h1 h2 => ?_, fun h1 h2 => ?_, ?_⟩
  · simp [MonitoredValue.triggers, hmv, List.filter_cons, h1, h2, hw, ha]
  · simp [MonitoredValue.triggers, hmv, List.filter_cons, h1, h2]
  · simp [MonitoredValue.triggers]

/-- Witness for C9 at the spec's Scenario B: set-point 25, warning band ±3,
alert band ±5, reading 32 — both thresholds violated, two alerts. -/
theorem triggers_independent_witness :
    (MonitoredValue.triggers
        { vset := 25,
          alerts := [{ lower := 3, upper := 3, level := Level.warning, isFraction := false },
                     { lower := 5, upper := 5, level := Level.alert, isFraction := false }],
          kind := Kind.temperature } 0 32).map (fun al => al.threshold.level)
      = [Level.warning, Level.alert] :=
  (triggers_independent
      { vset := 25,
        alerts := [{ lower := 3, upper := 3, level := Level.warning, isFraction := false },
                   { lower := 5, upper := 5, level := Level.alert, isFraction := false }],
        kind := Kind.temperature }
      { lower := 3, upper := 3, level := Level.warning, isFraction := false }
      { lower := 5, upper := 5, level := Level.alert, isFraction := false }
      0 32 rfl rfl rfl).1 (by norm_num [Threshold.violated]) (by norm_num [Threshold.violated])

theorem triggersAux_eq (now : ℤ) (k : Kind) (v s : ℚ) (l : List Threshold) :
    triggersAux now k v s l
      = some ((l.filter (fun t => t.violated v s)).map
          (fun t => { timestamp := now, threshold := t, value := v,
                      trigger := s, kind := k })) := by
  induction l with
  | nil => rfl
  | cons t ts ih =>
    by_cases h : t.violated v s
    · simp [triggersAux, h, Alert.mkA, ih, List.filter_cons]
    · simp [triggersAux, h, ih, List.filter_cons]

/-- C10: every Alert yielded by `triggers` is built from a triple that
satisfies that threshold's `violated` predicate, so running the generator
with the Alert constructor's `ValueError` branch in place never fails and
produces exactly the alerts of `triggers`. -/
theorem triggers_constructor_safe (mv : MonitoredValue) (now : ℤ) (v : ℚ) :
    mv.triggersE now v = some (mv.triggers now v) := by
  unfold MonitoredValue.triggersE MonitoredValue.triggers
  exact triggersAux_eq now mv.kind v mv.vset mv.alerts

/-- C6: at a fixed current time, `prune` is idempotent — the second call
moves nothing, leaving the same new/archived partition (contents and
order). -/
theorem prune_idempotent (st : AlertState) (now : ℤ) :
    (st.prune now).prune now = st.prune now := by
  unfold AlertState.prune
  simp [List.filter_filter]

theorem sevStep_rightComm (i : ℕ) (a b : Alert) :
    AlertState.sevStep (AlertState.sevStep i a) b
      = AlertState.sevStep (AlertState.sevStep i b) a := by
  unfold AlertState.sevStep
  split_ifs <;> omega

theorem foldl_sevStep_push (l : List Alert) (i : ℕ) (a : Alert) :
    l.foldl AlertState.sevStep (AlertState.sevStep i a)
      = AlertState.sevStep (l.foldl AlertState.sevStep i) a := by
  induction l generalizing i with
  | nil => rfl
  | cons b t ih =>
    simp only [List.foldl_cons]
    rw [sevStep_rightComm i a b, ih]

theorem foldl_sevStep_filter_split (p : Alert → Bool) (l : List Alert) (i : ℕ) :
    (l.filter (fun a => !p a)).foldl AlertState.sevStep
        ((l.filter p).foldl AlertState.sevStep i)
      = l.foldl AlertState.sevStep i := by
  induction l generalizing i with
  | nil => rfl
  | cons a t ih =>
    by_cases h : p a
    · simp only [List.filter_cons, h, if_pos, List.foldl_cons, ite_true, Bool.not_true,
        ite_false]
      exact ih (AlertState.sevStep i a)
    · simp only [List.filter_cons, h, Bool.not_false, ite_true, ite_false, List.foldl_cons]
      rw [← foldl_sevStep_push]
      exact ih (AlertState.sevStep i a)

theorem foldl_sevStep_le_init (l : List Alert) (i : ℕ) :
    l.foldl AlertState.sevStep i ≤ i := by
  induction l generalizing i with
  | nil => exact le_refl i
  | cons a t ih =>
    refine le_trans (ih (AlertState.sevStep i a)) ?_
    unfold AlertState.sevStep
    split_ifs <;> omega

theorem foldl_sevStep_le_mem (l : List Alert) (i : ℕ) (a : Alert) (ha : a ∈ l) :
    l.foldl AlertState.sevStep i ≤ a.threshold.level.index := by
  induction l generalizing i with
  | nil => cases ha
  | cons b t ih =>
    rcases List.mem_cons.mp ha with hab | hat
    · subst hab
      refine le_trans (foldl_sevStep_le_init t _) ?_
      unfold AlertState.sevStep
      split_ifs <;> omega
    · exact ih _ hat

/-- C7: `prune` leaves the composite severity unchanged — the severity index
(and hence the `severity` property) is computed over the union of new and
archived alerts, which prune only repartitions; and that index is a lower
bound of every retained alert's level index (sticky severity). -/
theorem prune_severity_frame (st : AlertState) (now : ℤ) :
    (st.prune now).severityIdx = st.severityIdx
      ∧ (st.prune now).severity? = st.severity?
      ∧ ∀ a ∈ (st.prune now).alerts, st.severityIdx ≤ a.threshold.level.index := by
  have hidx : (st.prune now).severityIdx = st.severityIdx := by
    unfold AlertState.severityIdx AlertState.alerts AlertState.prune
    simp only [List.foldl_append]
    exact foldl_sevStep_filter_split _ st.newA _
  refine ⟨hidx, by unfold AlertState.severity?; rw [hidx], fun a ha => ?_⟩
  have hmem : a ∈ st.alerts := by
    unfold AlertState.alerts AlertState.prune at ha
    unfold AlertState.alerts
    simp only [List.mem_append] at ha ⊢
    rcases ha with h | h
    · rcases h with h' | h'
      · exact Or.inl h'
      · exact Or.inr (List.mem_of_mem_filter h')
    · exact Or.inr (List.mem_of_mem_filter h)
  exact foldl_sevStep_le_mem st.alerts 10 a hmem

/-- Alert for the C7 witness. -/
def alC7 : Alert :=
  { timestamp := 0,
    threshold := { lower := 5, upper := 5, level := Level.alert, isFraction := false },
    value := 32, trigger := 25, kind := Kind.temperature }

/-- State for the C7 witness: one alert-level alert that expires at time
100. -/
def stC7 : AlertState :=
  { expiry := 10, newA := [alC7], archived := [], notified := Option.none }

/-- Witness for C7: pruning at time 100 archives the only alert yet leaves
the severity index (0 = alert) unchanged, and that index bounds the
archived alert's level index. -/
theorem prune_severity_frame_witness :
    (stC7.prune 100).severityIdx = stC7.severityIdx
      ∧ stC7.severityIdx ≤ alC7.threshold.level.index :=
  ⟨(prune_severity_frame stC7 100).1,
   (prune_severity_frame stC7 100).2.2 alC7 (by decide)⟩

theorem prune_notified (st : AlertState) (now : ℤ) :
    (st.prune now).notified = st.notified := rfl

theorem levelIndex_le_three (l : Level) : l.index ≤ 3 := by
  cases l <;> simp [Level.index]

/-- For a state holding at least one alert, the `severity` property returns a
level whose `LEVELS.index` is exactly `severityIdx` — so comparing against
`severityIdx` in `update` matches the code's
`LEVELS.index(self.severity)`. -/
theorem severityIdx_eq_index (st : AlertState) (h : st.alerts ≠ []) :
    ∃ sev, st.severity? = some sev ∧ LEVELS.indexOf sev = st.severityIdx := by
  obtain ⟨a, l, hal⟩ : ∃ a l, st.alerts = a :: l := by
    cases hh : st.alerts with
    | nil => exact absurd hh h
    | cons a l => exact ⟨a, l, rfl⟩
  have hmem : a ∈ st.alerts := by rw [hal]; exact List.mem_cons_self a l
  have h3 : st.severityIdx ≤ 3 :=
    le_trans (foldl_sevStep_le_mem st.alerts 10 a hmem) (levelIndex_le_three _)
  unfold AlertState.severity?
  interval_cases hi : st.severityIdx
  · exact ⟨Level.alert, rfl, by decide⟩
  · exact ⟨Level.warning, rfl, by decide⟩
  · exact ⟨Level.notify, rfl, by decide⟩
  · exact ⟨Level.info, rfl, by decide⟩

/-- C1: for a state with at least one retained alert and `notifiedAt` set,
updating with one incoming alert of the state's kind never resets the
notification timestamp when the incoming severity index is equal or higher
than the state's severity index, and always resets it to null when the
incoming index is strictly lower (more severe). -/
theorem update_rearm (st : AlertState) (a : Alert) (t now : ℤ)
    (hne : st.alerts ≠ []) (hnot : st.notified = some t)
    (hkind : Kind.isInstance a.kind st.stype = true) :
    (st.severityIdx ≤ a.threshold.level.index →
        (st.update [a] now).notified = some t)
      ∧ (a.threshold.level.index < st.severityIdx →
        (st.update [a] now).notified = Option.none) := by
  obtain ⟨la, hla⟩ : ∃ la, st.alerts.getLast? = some la := by
    cases hh : st.alerts.getLast? with
    | none => exact absurd (List.getLast?_eq_none_iff.mp hh) hne
    | some la => exact ⟨la, rfl⟩
  have hstype : st.stype = la.kind := by
    unfold AlertState.stype
    rw [hla]
    rfl
  rw [hstype] at hkind
  constructor
  · intro hge
    have hlt : ¬ a.threshold.level.index < st.severityIdx := by omega
    show ((st.updateStep a).prune now).notified = some t
    rw [prune_notified]
    unfold AlertState.updateStep
    rw [hla]
    simp [hkind, hlt, hnot]
  · intro hlt
    show ((st.updateStep a).prune now).notified = Option.none
    rw [prune_notified]
    unfold AlertState.updateStep
    rw [hla]
    simp [hkind, hlt]

/-- Concrete state for the C1 witness: one warning-level temperature alert,
already notified at time 5. -/
def stW1 : AlertState :=
  { expiry := 10,
    newA := [{ timestamp := 95,
               threshold := { lower := 3, upper := 3, level := Level.warning,
                              isFraction := false },
               value := 32, trigger := 25, kind := Kind.temperature }],
    archived := [], notified := some 5 }

/-- Incoming warning-level alert (index 1 = state severity index 1). -/
def alW1 : Alert :=
  { timestamp := 100,
    threshold := { lower := 3, upper := 3, level := Level.warning, isFraction := false },
    value := 32, trigger := 25, kind := Kind.temperature }

/-- Incoming alert-level alert (index 0 < state severity index 1). -/
def alA1 : Alert :=
  { timestamp := 100,
    threshold := { lower := 5, upper := 5, level := Level.alert, isFraction := false },
    value := 32, trigger := 25, kind := Kind.temperature }

/-- Witness for C1: an equal-severity alert leaves `notified` at 5; a
strictly more severe one resets it to null. -/
theorem update_rearm_witness :
    (stW1.update [alW1] 100).notified = some 5
      ∧ (stW1.update [alA1] 100).notified = Option.none :=
  ⟨(update_rearm stW1 alW1 5 100 (by decide) rfl (by decide)).1 (by decide),
   (update_rearm stW1 alA1 5 100 (by decide) rfl (by decide)).2 (by decide)⟩

/-- Warning-level alerts among a list (the spec's `countWarningIn`). -/
def countWarning (l : List Alert) : ℕ :=
  l.countP (fun al => al.threshold.level == Level.warning)

/-- Alert-level alerts among a list (the spec's `countAlertIn`). -/
def countAlert (l : List Alert) : ℕ :=
  l.countP (fun al => al.threshold.level == Level.alert)

theorem countStep_counts (l : List Alert) (w0 a0 : ℕ) :
    l.foldl AlertState.countStep (w0, a0)
      = (w0 + countWarning l, a0 + countAlert l) := by
  induction l generalizing w0 a0 with
  | nil => simp [countWarning, countAlert]
  | cons al t ih =>
    simp only [List.foldl_cons]
    by_cases h1 : al.threshold.level = Level.warning
    · have hc : AlertState.countStep (w0, a0) al = (w0 + 1, a0) := by
        unfold AlertState.countStep
        rw [h1]
        simp
      rw [hc, ih]
      simp +decide [countWarning, countAlert, List.countP_cons, h1, Prod.mk.injEq]
      try omega
    · by_cases h2 : al.threshold.level = Level.alert
      · have hc : AlertState.countStep (w0, a0) al = (w0, a0 + 1) := by
          unfold AlertState.countStep
          rw [h2]
          simp
        rw [hc, ih]
        simp +decide [countWarning, countAlert, List.countP_cons, h2, Prod.mk.injEq]
        try omega
      · have hc : AlertState.countStep (w0, a0) al = (w0, a0) := by
          unfold AlertState.countStep
          simp [h1, h2]
        rw [hc, ih]
        simp only [countWarning, countAlert, List.countP_cons]
        simp [h1, h2]

/-- C2: `pending` is true exactly when the count of warning-level alerts in
`newA` reaches the warning threshold or the count of alert-level alerts
reaches the alert threshold, and `notified` is null; consequently an
`update` that leaves both counts below their thresholds never yields a
pending state. -/
theorem pending_iff (cfg : Config) (st : AlertState) (incoming : List Alert) (now : ℤ) :
    (st.pending cfg = true
        ↔ ((cfg.warningThr ≤ (countWarning st.newA : ℤ)
              ∨ cfg.alertThr ≤ (countAlert st.newA : ℤ))
            ∧ st.notified = Option.none))
      ∧ ((countWarning (st.update incoming now).newA : ℤ) < cfg.warningThr →
          (countAlert (st.update incoming now).newA : ℤ) < cfg.alertThr →
          (st.update incoming now).pending cfg = false) := by
  have key : ∀ s : AlertState,
      s.pending cfg = true
        ↔ ((cfg.warningThr ≤ (countWarning s.newA : ℤ)
              ∨ cfg.alertThr ≤ (countAlert s.newA : ℤ))
            ∧ s.notified = Option.none) := by
    intro s
    unfold AlertState.pending AlertState.pendingCounts
    rw [countStep_counts]
    simp [Option.isNone_iff_eq_none]
  refine ⟨key st, fun h1 h2 => ?_⟩
  cases hb : (st.update incoming now).pending cfg with
  | false => rfl
  | true =>
    rcases (key _).mp hb with ⟨hor, _⟩
    rcases hor with h | h <;> omega

/-- Concrete state for the C2 witness: a single un-notified warning alert
under thresholds warning = 2, alert = 2. -/
def stW2 : AlertState :=
  { expiry := 10,
    newA := [{ timestamp := 95,
               threshold := { lower := 3, upper := 3, level := Level.warning,
                              isFraction := false },
               value := 32, trigger := 25, kind := Kind.temperature }],
    archived := [], notified := Option.none }

def cfgW2 : Config := { expiry := 10, warningThr := 2, alertThr := 2 }

/-- Witness for C2: after an update adding nothing, one warning alert is
below both thresholds and the state is not pending. -/
theorem pending_iff_witness : (stW2.update [] 100).pending cfgW2 = false :=
  (pending_iff cfgW2 stW2 [] 100).2 (by decide) (by decide)

/-- C8: `AlertHandler.text` stamps `notified = now` regardless of the
transport outcome (the code never inspects it), so even a failed transport
leaves the debounce gate closed: the state is no longer pending. -/
theorem text_commits_notified (st : AlertState) (now : ℤ) (o : TransportResult)
    (cfg : Config) :
    (AlertHandler.text st now o).notified = some now
      ∧ (AlertHandler.text st now o).pending cfg = false := by
  constructor
  · rfl
  · unfold AlertState.pending AlertHandler.text
    simp

/-- Alert for the C3 scenario: a warning recorded at time 0. -/
def alC3 : Alert :=
  { timestamp := 0,
    threshold := { lower := 3, upper := 3, level := Level.warning, isFraction := false },
    value := 32, trigger := 25, kind := Kind.temperature }

/-- Pre-call state for C3: active (one unexpired alert), never notified. -/
def stC3 : AlertState :=
  { expiry := 10, newA := [alC3], archived := [], notified := Option.none }

/-- Configuration for C3 with warning-count threshold 0: the only way a
state with an emptied `newA` can still be pending. -/
def cfgC3 : Config := { expiry := 10, warningThr := 0, alertThr := 1 }

def sensorC3 : Sensor := { features := [] }

/-- C3: in `handle`, inactive states are removed only after the notification
scan; at time 100 the state's alert expires during the call (it becomes
inactive), yet because `pending` held for it the collaborator is invoked on
it in that same call — the state appears in the invocation log even though
it is removed from the resulting registry. -/
theorem handle_fires_before_removal :
    stC3.active = true
      ∧ (stC3.prune 100).active = false
      ∧ (stC3.prune 100).pending cfgC3 = true
      ∧ AlertHandler.handle cfgC3 100 sensorC3 [] [stC3]
          = some ([], [stC3.prune 100]) := by decide

/-- Witness for C5's amended theorem: level `"warning"` is accepted, and
`"-50%"` parses to −50/100, a negative fraction. -/
theorem construction_validation_witness :
    (Threshold.mkT 1 1 "warning").isSome = true
      ∧ percentToFloat (BoundVal.str "-50%") = some ((-50 : ℚ) / 100)
      ∧ ((-50 : ℚ) / 100 < 0) := by
  have hp : parseFloatQ (stripSpacePercent "-50%") = some (-50 : ℚ) := by
    have h1 : stripSpacePercent "-50%" = "-50" := by decide
    have h2 : ("-50").toList = ['-', '5', '0'] := by decide
    rw [h1]
    simp +decide [parseFloatQ, h2, digitsToNat, charToDigit]
  exact ⟨(construction_validation 1 1 "warning" "-50%" (-50) (by decide) hp).1.mpr (by simp),
    (construction_validation 1 1 "warning" "-50%" (-50) (by decide) hp).2.1,
    (construction_validation 1 1 "warning" "-50%" (-50) (by decide) hp).2.2 (by norm_num)⟩

end PiAlert
